import Mathlib

/-!
Shallow embedding of the VedicVault blog CRUD backend
(src/main.py and src/api/main.py) for checking the natural-language
specification.

Modelling conventions:
- A stored MongoDB document is `Doc`; the collection `db.blogs` is a list
  of documents.  `views` and `likes` are `Option Int` because the create
  handler of src/main.py persists documents without those keys, while the
  create handler of src/api/main.py stores them as 0; Mongo documents are
  schemaless, and these are the only two fields any reachable state can
  omit.
- Timestamps are abstract clock readings (`Nat`); `datetime.now(ist)` is a
  `now : Nat` parameter of each mutating handler.
- `ObjectId()` generation is modelled by `oidHex nonce`, rendering a nonce
  as the 24-lowercase-hex textual form of a bson object id;
  `ObjectId(id)` string parsing is `parseObjectId` (24 hex chars, any
  case, normalised to lower case, else the bson InvalidId exception).
- Each handler returns `Resp α × Store × List StoreCall`: the HTTP-level
  response, the collection afterwards, and the trace of driver calls it
  issued.  The body is written in an exception style (`Except PyExc`),
  and `catchAll` is the translation of the blanket
  `except Exception as e: raise HTTPException(status_code=500, detail=str(e))`
  that every handler ends with; note that a FastAPI `HTTPException` raised
  inside the `try` block is itself an `Exception`, so `catchAll` rewraps
  the in-handler 404/400 responses as 500 with `str(e)` as detail, exactly
  as the Python does.
-/

namespace VedicVault

/-- A stored document of the `blogs` collection.  All fields other than the
counters are always present in every reachable document; `views`/`likes`
are absent (`none`) when the src/main.py create handler produced the
document. -/
structure Doc where
  id : String
  title : String
  content : String
  author : String
  tags : List String
  views : Option Int
  likes : Option Int
  createdAt : Nat
  updatedAt : Nat
deriving DecidableEq

/-- The `db.blogs` collection. -/
abbrev Store := List Doc

/-- The `Blog` pydantic response model.  The source declares
`_id: PyObjectId = Field(default_factory=PyObjectId, alias="_id")`, but
pydantic v1 treats an underscore-prefixed class attribute as private, not
as a model field, so `Blog` has no identifier field at all; the declared
defaults `views = 0`, `likes = 0` fill absent counter keys. -/
structure Blog where
  title : String
  content : String
  author : String
  tags : List String
  views : Int
  likes : Int
  createdAt : Nat
  updatedAt : Nat
deriving DecidableEq

/-- Building the `Blog` response model from a stored document
(`Blog(**blog)` in the handlers): the extra `_id` key of the document is
silently ignored (pydantic v1 default `Extra.ignore`, and `_id` is not a
model field), and absent counters default to 0; the response therefore
carries no identifier. -/
def Blog.ofDoc (d : Doc) : Blog :=
  ⟨d.title, d.content, d.author, d.tags,
   d.views.getD 0, d.likes.getD 0, d.createdAt, d.updatedAt⟩

/-- The `BlogCreate` request model (required `title`, `content`, `author`,
`tags`; plain `str` fields, so no emptiness constraint). -/
structure BlogCreate where
  title : String
  content : String
  author : String
  tags : List String
deriving DecidableEq

/-- An untyped create request body, before pydantic validation: each of
the four recognised keys may be present or absent. -/
structure RawCreate where
  title : Option String
  content : Option String
  author : Option String
  tags : Option (List String)
deriving DecidableEq

/-- Pydantic validation of a create body against `BlogCreate`: every field
is required (absence is a validation error), and nothing else is checked —
in particular the empty string is accepted for every text field. -/
def parseBlogCreate (r : RawCreate) : Option BlogCreate :=
  match r.title, r.content, r.author, r.tags with
  | some t, some c, some a, some g => some ⟨t, c, a, g⟩
  | _, _, _, _ => none

/-- The `BlogUpdate` request model; a `none` field is an unset field
(`dict(exclude_unset=True)` drops it). -/
structure BlogUpdate where
  title : Option String := none
  content : Option String := none
  author : Option String := none
  tags : Option (List String) := none
deriving DecidableEq

/-- The `BlogStatsUpdate` request model; a `none` field is unset. -/
structure BlogStatsUpdate where
  views : Option Int := none
  likes : Option Int := none
deriving DecidableEq

/-- The `check_positive` validator of `BlogStatsUpdate`: a set value `v`
is rejected when `v < 0`. -/
def check_positive : Option Int → Bool
  | none => true
  | some v => !(v < 0 : Bool)

/-- A stats payload passes pydantic validation when both fields pass
`check_positive`. -/
def BlogStatsUpdate.valid (st : BlogStatsUpdate) : Bool :=
  check_positive st.views && check_positive st.likes

/-- One lowercase hex digit: digits 0-9 then letters a-f (codepoint 48 is
the zero digit, codepoint 87 + 10 is the letter a). -/
def hexChar (n : Nat) : Char :=
  if n % 16 < 10 then Char.ofNat (48 + n % 16) else Char.ofNat (87 + n % 16)

/-- A character allowed in the textual form of an object id (hex digit,
either case), as accepted by `bson.ObjectId.is_valid`. -/
def isHexChar (c : Char) : Bool :=
  (48 ≤ c.toNat && c.toNat ≤ 57) ||
  (97 ≤ c.toNat && c.toNat ≤ 102) ||
  (65 ≤ c.toNat && c.toNat ≤ 70)

/-- Fixed-width rendering of a nonce in hex digits, least significant
first. -/
def hexDigitsFixed : Nat → Nat → List Char
  | 0, _ => []
  | k + 1, n => hexChar n :: hexDigitsFixed k (n / 16)

/-- The textual form of a freshly generated `ObjectId()`: 24 lowercase hex
characters determined by the generation nonce. -/
def oidHex (nonce : Nat) : String := String.mk (hexDigitsFixed 24 nonce)

/-- The `bson.ObjectId.is_valid` check on a candidate id string: exactly
24 characters, all hex. -/
def isValidObjectId (id : String) : Bool :=
  (id.data.length == 24) && id.data.all isHexChar

/-- The `ObjectId(id)` constructor on a string: a valid 24-hex string is
normalised to its lowercase binary-faithful form, anything else raises
`bson.errors.InvalidId`. -/
def parseObjectId (id : String) : Option String :=
  if isValidObjectId id then some (String.mk (id.data.map Char.toLower))
  else none

/-- Exceptions a handler body can raise: an in-handler FastAPI
`HTTPException`, the bson `InvalidId` from `ObjectId(id)`, or a generic
runtime error. -/
inductive PyExc where
  | http (status : Nat) (detail : String)
  | invalidId (id : String)
  | runtime (msg : String)
deriving DecidableEq

/-- The `str(e)` used as the 500 detail by the blanket handler
(`starlette.HTTPException.__str__` is `f"{status_code}: {detail}"`). -/
def PyExc.toStr : PyExc → String
  | .http status detail => toString status ++ ": " ++ detail
  | .invalidId id => "InvalidId: " ++ id ++ " is not a valid ObjectId"
  | .runtime msg => msg

/-- An HTTP-level response: a success body, or an error status with
detail. -/
inductive Resp (α : Type) where
  | ok (body : α)
  | err (status : Nat) (detail : String)
deriving DecidableEq

/-- Whether a response is an error response. -/
def Resp.isErr : Resp α → Bool
  | .ok _ => false
  | .err _ _ => true

/-- A driver-level call issued against the collection. -/
inductive StoreCall where
  | findAll
  | findOne
  | insertOne
  | updateOne
  | deleteOne
deriving DecidableEq

/-- Whether a driver call writes to the store. -/
def StoreCall.isWrite : StoreCall → Bool
  | .insertOne | .updateOne | .deleteOne => true
  | _ => false

/-- Number of store writes in a call trace. -/
def writeCount (t : List StoreCall) : Nat :=
  (t.filter StoreCall.isWrite).length

/-- The `db.blogs.find_one({"_id": oid})` driver call. -/
def find_one (s : Store) (oid : String) : Option Doc :=
  s.find? (fun d => d.id == oid)

/-- The `db.blogs.insert_one(doc)` driver call. -/
def insert_one (s : Store) (d : Doc) : Store := s ++ [d]

/-- The `db.blogs.update_one({"_id": oid}, u)` driver call: applies `f`
(the update document) to the first matching document, and reports
`(collection, matched_count, modified_count)`; `modified_count` is 0 when
the update left the matched document unchanged. -/
def update_one (oid : String) (f : Doc → Doc) : Store → Store × Nat × Nat
  | [] => ([], 0, 0)
  | d :: rest =>
    if d.id == oid then
      (f d :: rest, 1, if f d = d then 0 else 1)
    else
      let r := update_one oid f rest
      (d :: r.1, r.2.1, r.2.2)

/-- The `db.blogs.delete_one({"_id": oid})` driver call: removes the first
matching document and reports `(collection, deleted_count)`. -/
def delete_one (oid : String) : Store → Store × Nat
  | [] => ([], 0)
  | d :: rest =>
    if d.id == oid then (rest, 1)
    else
      let r := delete_one oid rest
      (d :: r.1, r.2)

/-- The `{"$set": update_data}` document of the PUT handler: overwrite the
provided fields and always overwrite `updatedAt` with the current time. -/
def applySet (u : BlogUpdate) (now : Nat) (d : Doc) : Doc :=
  { d with
    title := u.title.getD d.title
    content := u.content.getD d.content
    author := u.author.getD d.author
    tags := u.tags.getD d.tags
    updatedAt := now }

/-- The `{"$inc": increment, "$set": {"updatedAt": now}}` document of the
PATCH handler: Mongo `$inc` adds the delta to the stored counter, creating
the field with value equal to the delta when it is absent (absent reads as
0). -/
def applyInc (st : BlogStatsUpdate) (now : Nat) (d : Doc) : Doc :=
  { d with
    views := match st.views with
      | some v => some (d.views.getD 0 + v)
      | none => d.views
    likes := match st.likes with
      | some v => some (d.likes.getD 0 + v)
      | none => d.likes
    updatedAt := now }

/-- The blanket `except Exception as e: raise HTTPException(500, str(e))`
closing every handler: any exception raised by the body — including the
in-handler `HTTPException(404/400)` responses, which are `Exception`s —
is replaced by a 500 response carrying `str(e)`. -/
def catchAll (r : Except PyExc α × Store × List StoreCall) :
    Resp α × Store × List StoreCall :=
  match r with
  | (.ok a, s, t) => (.ok a, s, t)
  | (.error e, s, t) => (.err 500 (PyExc.toStr e), s, t)

/-- GET `/api/blogs/` (`get_all_blogs`, src/main.py lines 91-100): one
`find()` over the collection, each document passed through `Blog`. -/
def get_all_blogs (s : Store) : Resp (List Blog) × Store × List StoreCall :=
  catchAll (.ok (s.map Blog.ofDoc), s, [.findAll])

/-- GET `/api/blogs/{id}` (`get_blog`, src/main.py lines 102-111, same in
src/api/main.py): `ObjectId(id)` then `find_one`; a missing document makes
the body raise `HTTPException(404, "Blog not found")`. -/
def get_blog (id : String) (s : Store) : Resp Blog × Store × List StoreCall :=
  catchAll <|
    match parseObjectId id with
    | none => (.error (.invalidId id), s, [])
    | some oid =>
      match find_one s oid with
      | none => (.error (.http 404 "Blog not found"), s, [.findOne])
      | some d => (.ok (Blog.ofDoc d), s, [.findOne])

/-- POST `/api/blogs/` (`create_blog`, src/main.py lines 113-122):
`blog_data = blog.dict()` plus a fresh `ObjectId()` and
`createdAt = updatedAt = now`; this variant never adds `views`/`likes`
keys to the stored document, so the inserted document lacks both and only
the `Blog` response model defaults them to 0. -/
def create_blog (b : BlogCreate) (nonce now : Nat) (s : Store) :
    Resp Blog × Store × List StoreCall :=
  catchAll <|
    let doc : Doc :=
      { id := oidHex nonce, title := b.title, content := b.content,
        author := b.author, tags := b.tags, views := none, likes := none,
        createdAt := now, updatedAt := now }
    (.ok (Blog.ofDoc doc), insert_one s doc, [.insertOne])

/-- POST `/api/blogs/` (`create_blog`, src/api/main.py lines 98-110): same
as the src/main.py variant except that `blog_data['views'] = 0` and
`blog_data['likes'] = 0` are stored explicitly. -/
def create_blog_api (b : BlogCreate) (nonce now : Nat) (s : Store) :
    Resp Blog × Store × List StoreCall :=
  catchAll <|
    let doc : Doc :=
      { id := oidHex nonce, title := b.title, content := b.content,
        author := b.author, tags := b.tags, views := some 0, likes := some 0,
        createdAt := now, updatedAt := now }
    (.ok (Blog.ofDoc doc), insert_one s doc, [.insertOne])

/-- PUT `/api/blogs/{id}` (`update_blog`, src/main.py lines 124-140, same
in src/api/main.py): reject an all-unset payload with
`HTTPException(400)`, otherwise `$set` the provided fields plus
`updatedAt = now` through `update_one`, raise `HTTPException(404)` when
`modified_count == 0`, and read the document back with `find_one`.
`Blog(**None)` on a vanished document would be a runtime `TypeError`. -/
def update_blog (id : String) (u : BlogUpdate) (now : Nat) (s : Store) :
    Resp Blog × Store × List StoreCall :=
  catchAll <|
    if u = ⟨none, none, none, none⟩ then
      (.error (.http 400 "No data provided for update"), s, [])
    else
      match parseObjectId id with
      | none => (.error (.invalidId id), s, [])
      | some oid =>
        let r := update_one oid (applySet u now) s
        if r.2.2 = 0 then
          (.error (.http 404 "Blog not found"), r.1, [.updateOne])
        else
          match find_one r.1 oid with
          | none => (.error (.runtime "TypeError"), r.1, [.updateOne, .findOne])
          | some d => (.ok (Blog.ofDoc d), r.1, [.updateOne, .findOne])

/-- DELETE `/api/blogs/{id}` (`delete_blog`, src/main.py lines 142-150):
`delete_one`, then `HTTPException(404)` when `deleted_count == 0`, else
the `{"status": "success"}` body (the src/api/main.py variant differs only
in returning no success body). -/
def delete_blog (id : String) (s : Store) :
    Resp String × Store × List StoreCall :=
  catchAll <|
    match parseObjectId id with
    | none => (.error (.invalidId id), s, [])
    | some oid =>
      let r := delete_one oid s
      if r.2 = 0 then
        (.error (.http 404 "Blog not found"), r.1, [.deleteOne])
      else
        (.ok "success", r.1, [.deleteOne])

/-- PATCH `/api/blogs/{id}` (`update_blog_stats`, src/main.py lines
152-176, same semantics in src/api/main.py): reject an all-unset payload
with `HTTPException(400, "No stats provided")`; the `increment` dict is
rebuilt from exactly the `views`/`likes` keys, so its emptiness re-check
(`"No valid stats provided"`) tests the same condition; then one
`update_one` applying `$inc` plus `$set updatedAt`, `HTTPException(404)`
when `matched_count == 0`, and a `find_one` read-back. -/
def update_blog_stats (id : String) (st : BlogStatsUpdate) (now : Nat)
    (s : Store) : Resp Blog × Store × List StoreCall :=
  catchAll <|
    if st = ⟨none, none⟩ then
      (.error (.http 400 "No stats provided"), s, [])
    else if st = ⟨none, none⟩ then
      (.error (.http 400 "No valid stats provided"), s, [])
    else
      match parseObjectId id with
      | none => (.error (.invalidId id), s, [])
      | some oid =>
        let r := update_one oid (applyInc st now) s
        if r.2.1 = 0 then
          (.error (.http 404 "Blog not found"), r.1, [.updateOne])
        else
          match find_one r.1 oid with
          | none => (.error (.runtime "TypeError"), r.1, [.updateOne, .findOne])
          | some d => (.ok (Blog.ofDoc d), r.1, [.updateOne, .findOne])

/-! ### Cons-step equations for the driver calls -/

theorem find_one_cons (d : Doc) (rest : Store) (oid : String) :
    find_one (d :: rest) oid = if d.id == oid then some d else find_one rest oid := by
  cases hd : d.id == oid <;> simp [find_one, List.find?, hd]

theorem update_one_cons (oid : String) (f : Doc → Doc) (d : Doc) (rest : Store) :
    update_one oid f (d :: rest) =
      if d.id == oid then (f d :: rest, 1, if f d = d then 0 else 1)
      else (d :: (update_one oid f rest).1,
            (update_one oid f rest).2.1, (update_one oid f rest).2.2) := rfl

theorem delete_one_cons (oid : String) (d : Doc) (rest : Store) :
    delete_one oid (d :: rest) =
      if d.id == oid then (rest, 1)
      else (d :: (delete_one oid rest).1, (delete_one oid rest).2) := rfl

/-! ### Behaviour of `update_one` and `delete_one` -/

theorem find_one_eq_none_of_all (oid : String) :
    ∀ s : Store, s.all (fun d => !(d.id == oid)) = true → find_one s oid = none := by
  intro s
  induction s with
  | nil => intro _; rfl
  | cons d rest ih =>
    intro h
    simp only [List.all_cons, Bool.and_eq_true, Bool.not_eq_true'] at h
    rw [find_one_cons, h.1]
    simpa using ih h.2

theorem update_one_found (oid : String) (f : Doc → Doc)
    (hpres : ∀ x, (f x).id = x.id) :
    ∀ (s : Store) (d : Doc), find_one s oid = some d →
      (update_one oid f s).2.1 = 1 ∧
      (update_one oid f s).2.2 = (if f d = d then 0 else 1) ∧
      find_one (update_one oid f s).1 oid = some (f d) := by
  intro s
  induction s with
  | nil => intro d h; exact absurd h (by simp [find_one])
  | cons d0 rest ih =>
    intro d h
    rw [find_one_cons] at h
    by_cases hd : (d0.id == oid) = true
    · rw [if_pos hd] at h
      injection h with h
      subst h
      rw [update_one_cons, if_pos hd]
      refine ⟨rfl, rfl, ?_⟩
      rw [find_one_cons]
      have hid : ((f d0).id == oid) = true := by rw [hpres d0]; exact hd
      rw [if_pos hid]
    · rw [if_neg hd] at h
      obtain ⟨h1, h2, h3⟩ := ih d h
      rw [update_one_cons, if_neg hd]
      refine ⟨h1, h2, ?_⟩
      rw [find_one_cons, if_neg hd]
      exact h3

theorem update_one_modified_zero (oid : String) (f : Doc → Doc) :
    ∀ s : Store, (update_one oid f s).2.2 = 0 → (update_one oid f s).1 = s := by
  intro s
  induction s with
  | nil => intro _; rfl
  | cons d rest ih =>
    rw [update_one_cons]
    by_cases hd : (d.id == oid) = true
    · rw [if_pos hd]
      intro h
      by_cases hfd : f d = d
      · simp [hfd]
      · rw [if_neg hfd] at h
        exact absurd h one_ne_zero
    · rw [if_neg hd]
      intro h
      simp only at h ⊢
      rw [ih h]

theorem delete_one_deleted_zero (oid : String) :
    ∀ s : Store, (delete_one oid s).2 = 0 → (delete_one oid s).1 = s := by
  intro s
  induction s with
  | nil => intro _; rfl
  | cons d rest ih =>
    rw [delete_one_cons]
    by_cases hd : (d.id == oid) = true
    · rw [if_pos hd]
      intro h
      exact absurd h one_ne_zero
    · rw [if_neg hd]
      intro h
      simp only at h ⊢
      rw [ih h]

theorem mem_update_one (oid : String) (f : Doc → Doc) :
    ∀ (s : Store) (x : Doc), x ∈ (update_one oid f s).1 →
      x ∈ s ∨ ∃ d, d ∈ s ∧ x = f d := by
  intro s
  induction s with
  | nil =>
    intro x hx
    exact absurd hx (by simp [update_one])
  | cons d rest ih =>
    intro x hx
    rw [update_one_cons] at hx
    by_cases hd : (d.id == oid) = true
    · rw [if_pos hd] at hx
      rcases List.mem_cons.mp hx with h | h
      · exact Or.inr ⟨d, List.mem_cons_self d rest, h⟩
      · exact Or.inl (List.mem_cons_of_mem d h)
    · rw [if_neg hd] at hx
      rcases List.mem_cons.mp hx with h | h
      · exact Or.inl (h ▸ List.mem_cons_self d rest)
      · rcases ih x h with h2 | ⟨d2, hmem, heq⟩
        · exact Or.inl (List.mem_cons_of_mem d h2)
        · exact Or.inr ⟨d2, List.mem_cons_of_mem d hmem, heq⟩

theorem update_one_not_found (oid : String) (f : Doc → Doc) :
    ∀ s : Store, find_one s oid = none → update_one oid f s = (s, 0, 0) := by
  intro s
  induction s with
  | nil => intro _; rfl
  | cons d rest ih =>
    intro h
    rw [find_one_cons] at h
    by_cases hd : (d.id == oid) = true
    · rw [if_pos hd] at h
      exact absurd h (by simp)
    · rw [if_neg hd] at h
      rw [update_one_cons, if_neg hd, ih h]

theorem catchAll_store (x : Except PyExc α × Store × List StoreCall) :
    (catchAll x).2 = x.2 := by
  obtain ⟨e, s, t⟩ := x
  cases e <;> rfl

/-! ### The generated object id is well formed -/

theorem hexChar_hex (n : Nat) : isHexChar (hexChar n) = true := by
  have h16 : ∀ i, i < 16 →
      isHexChar (if i < 10 then Char.ofNat (48 + i) else Char.ofNat (87 + i))
        = true := by decide
  exact h16 (n % 16) (Nat.mod_lt n (by decide))

theorem hexDigitsFixed_length (k : Nat) : ∀ n, (hexDigitsFixed k n).length = k := by
  induction k with
  | zero => intro n; rfl
  | succ k ih => intro n; simp [hexDigitsFixed, ih]

theorem hexDigitsFixed_all (k : Nat) : ∀ n, (hexDigitsFixed k n).all isHexChar = true := by
  induction k with
  | zero => intro n; rfl
  | succ k ih => intro n; simp [hexDigitsFixed, hexChar_hex, ih]

theorem oidHex_valid (nonce : Nat) : isValidObjectId (oidHex nonce) = true := by
  show (((hexDigitsFixed 24 nonce).length == 24) &&
        (hexDigitsFixed 24 nonce).all isHexChar) = true
  simp [hexDigitsFixed_length, hexDigitsFixed_all]

/-! ### Concrete fixtures for counterexamples and witnesses -/

/-- A well-formed object id string. -/
def idA : String := "000000000000000000000001"

/-- Another well-formed object id string, distinct from `idA`. -/
def idB : String := "00000000000000000000000b"

/-- A concrete stored document with id `idA`. -/
def dA : Doc := ⟨idA, "t1", "c1", "a1", ["x"], some 3, some 5, 10, 20⟩

/-! ### Record-level invariants -/

/-- The record-level invariant the code actually maintains: counters (an
absent counter reading as 0) never negative, and
`createdAt ≤ updatedAt`. -/
def goodDoc (d : Doc) : Bool :=
  decide (0 ≤ d.views.getD 0) && decide (0 ≤ d.likes.getD 0) &&
  decide (d.createdAt ≤ d.updatedAt)

/-- Every stored record satisfies the record-level invariant. -/
def goodStore (s : Store) : Bool := s.all goodDoc

/-- The clock has advanced at least to every stored record's last
write. -/
def clockOk (s : Store) (now : Nat) : Bool :=
  s.all (fun d => decide (d.updatedAt ≤ now))

theorem goodDoc_applySet (u : BlogUpdate) (now : Nat) (d : Doc)
    (hg : goodDoc d = true) (hc : d.updatedAt ≤ now) :
    goodDoc (applySet u now d) = true := by
  simp only [goodDoc, Bool.and_eq_true, decide_eq_true_eq] at hg ⊢
  obtain ⟨⟨hgv, hgl⟩, hgt⟩ := hg
  refine ⟨⟨?_, ?_⟩, ?_⟩
  · simpa [applySet] using hgv
  · simpa [applySet] using hgl
  · simp only [applySet]
    exact le_trans hgt hc

theorem goodDoc_applyInc (st : BlogStatsUpdate) (now : Nat) (d : Doc)
    (hg : goodDoc d = true) (hc : d.updatedAt ≤ now)
    (hval : st.valid = true) :
    goodDoc (applyInc st now d) = true := by
  simp only [goodDoc, Bool.and_eq_true, decide_eq_true_eq] at hg
  obtain ⟨⟨hgv, hgl⟩, hgt⟩ := hg
  simp only [BlogStatsUpdate.valid, Bool.and_eq_true] at hval
  obtain ⟨hvv, hvl⟩ := hval
  simp only [goodDoc, Bool.and_eq_true, decide_eq_true_eq]
  refine ⟨⟨?_, ?_⟩, ?_⟩
  · rcases hsv : st.views with _ | v
    · simpa [applyInc, hsv] using hgv
    · rw [hsv] at hvv
      simp only [check_positive] at hvv
      have hv0 : 0 ≤ v := le_of_not_lt (by simpa using hvv)
      simp only [applyInc, hsv, Option.getD_some]
      exact add_nonneg hgv hv0
  · rcases hsl : st.likes with _ | w
    · simpa [applyInc, hsl] using hgl
    · rw [hsl] at hvl
      simp only [check_positive] at hvl
      have hw0 : 0 ≤ w := le_of_not_lt (by simpa using hvl)
      simp only [applyInc, hsl, Option.getD_some]
      exact add_nonneg hgl hw0
  · simp only [applyInc]
    exact le_trans hgt hc

theorem goodStore_update_one (oid : String) (f : Doc → Doc) (s : Store)
    (hgood : goodStore s = true)
    (hf : ∀ d ∈ s, goodDoc d = true → goodDoc (f d) = true) :
    goodStore (update_one oid f s).1 = true := by
  rw [goodStore, List.all_eq_true] at hgood ⊢
  intro x hx
  rcases mem_update_one oid f s x hx with hmem | ⟨d, hd, rfl⟩
  · exact hgood x hmem
  · exact hf d hd (hgood d hd)

/-! ### The collection left behind by PUT and PATCH -/

theorem update_blog_store_shape (id : String) (u : BlogUpdate) (now : Nat)
    (s : Store) :
    (update_blog id u now s).2.1 = s ∨
    ∃ oid, (update_blog id u now s).2.1 = (update_one oid (applySet u now) s).1 := by
  by_cases hu : u = ⟨none, none, none, none⟩
  · left
    simp [update_blog, hu, catchAll]
  · cases hpid : parseObjectId id with
    | none =>
      left
      simp [update_blog, hu, hpid, catchAll]
    | some oid =>
      right
      refine ⟨oid, ?_⟩
      simp only [update_blog, if_neg hu, hpid]
      rw [catchAll_store]
      split
      · rfl
      · split <;> rfl

theorem update_blog_stats_store_shape (id : String) (st : BlogStatsUpdate)
    (now : Nat) (s : Store) :
    (update_blog_stats id st now s).2.1 = s ∨
    ∃ oid, (update_blog_stats id st now s).2.1
              = (update_one oid (applyInc st now) s).1 := by
  by_cases hst : st = ⟨none, none⟩
  · left
    simp [update_blog_stats, hst, catchAll]
  · cases hpid : parseObjectId id with
    | none =>
      left
      simp [update_blog_stats, hst, hpid, catchAll]
    | some oid =>
      right
      refine ⟨oid, ?_⟩
      simp only [update_blog_stats, if_neg hst, hpid]
      rw [catchAll_store]
      split
      · rfl
      · split <;> rfl

/-! ### Claim theorems -/

/-- C1: the claim says a never-created or already-deleted id gives a 404
and never a 500.  In the code the in-handler `HTTPException(404)` is
itself caught by the blanket `except Exception` and re-raised as a 500
whose detail is the stringified 404 exception, so the get-by-id operation
returns 500, never 404: here on a never-created id against an empty
collection, and on an id fetched again after a successful delete. -/
theorem C1_get_missing_id_returns_500 :
    get_blog idB ([] : Store) = (.err 500 "404: Blog not found", [], [.findOne])
    ∧ (delete_blog idA [dA]).2.1 = []
    ∧ get_blog idA (delete_blog idA [dA]).2.1
        = (.err 500 "404: Blog not found", [], [.findOne]) := by decide

/-- C2: the claim says PUT with an empty payload returns a 400 validation
failure "no data provided" and performs no store call.  For every id,
clock reading and store, the handler indeed short-circuits before any
store call (empty trace, store unchanged), but the intended
`HTTPException(400, "No data provided for update")` is swallowed by the
blanket exception handler and surfaces as a 500. -/
theorem C2_put_empty_payload_short_circuits_as_500 (id : String) (now : Nat)
    (s : Store) :
    update_blog id ⟨none, none, none, none⟩ now s
      = (.err 500 "400: No data provided for update", s, []) := rfl

/-- C3: for every existing record and every valid stats payload with at
least one counter set, the PATCH handler succeeds and is additive: the
stored and returned counters equal the prior counters (an absent stored
counter reading as 0) plus the supplied deltas — they are never replaced
by the absolute payload values. -/
theorem C3_stats_increment_additive (id oid : String) (st : BlogStatsUpdate)
    (now : Nat) (s : Store) (d : Doc)
    (hid : parseObjectId id = some oid)
    (hfound : find_one s oid = some d)
    (hval : st.valid = true)
    (hsome : st ≠ ⟨none, none⟩) :
    update_blog_stats id st now s
      = (.ok (Blog.ofDoc (applyInc st now d)),
         (update_one oid (applyInc st now) s).1, [.updateOne, .findOne])
    ∧ (Blog.ofDoc (applyInc st now d)).views
        = (Blog.ofDoc d).views + st.views.getD 0
    ∧ (Blog.ofDoc (applyInc st now d)).likes
        = (Blog.ofDoc d).likes + st.likes.getD 0
    ∧ find_one (update_one oid (applyInc st now) s).1 oid
        = some (applyInc st now d) := by
  have hpres : ∀ x : Doc, (applyInc st now x).id = x.id := fun _ => rfl
  obtain ⟨hm, hmod, hfind⟩ :=
    update_one_found oid (applyInc st now) hpres s d hfound
  refine ⟨?_, ?_, ?_, hfind⟩
  · simp [update_blog_stats, hid, hsome, hm, hfind, catchAll]
  · cases hv : st.views <;> simp [applyInc, Blog.ofDoc, hv]
  · cases hv : st.likes <;> simp [applyInc, Blog.ofDoc, hv]

/-- C3 witness: incrementing the concrete document `dA` (views 3, likes 5)
by views 2 and likes 3 yields views 5 and likes 8, additively. -/
theorem C3_witness :
    parseObjectId idA = some idA
    ∧ find_one [dA] idA = some dA
    ∧ BlogStatsUpdate.valid ⟨some 2, some 3⟩ = true
    ∧ (⟨some 2, some 3⟩ : BlogStatsUpdate) ≠ ⟨none, none⟩
    ∧ (update_blog_stats idA ⟨some 2, some 3⟩ 30 [dA]
        = (.ok (Blog.ofDoc (applyInc ⟨some 2, some 3⟩ 30 dA)),
           (update_one idA (applyInc ⟨some 2, some 3⟩ 30) [dA]).1,
           [.updateOne, .findOne])
      ∧ (Blog.ofDoc (applyInc ⟨some 2, some 3⟩ 30 dA)).views
          = (Blog.ofDoc dA).views + (some (2 : Int)).getD 0
      ∧ (Blog.ofDoc (applyInc ⟨some 2, some 3⟩ 30 dA)).likes
          = (Blog.ofDoc dA).likes + (some (3 : Int)).getD 0
      ∧ find_one (update_one idA (applyInc ⟨some 2, some 3⟩ 30) [dA]).1 idA
          = some (applyInc ⟨some 2, some 3⟩ 30 dA)) :=
  ⟨by decide, by decide, by decide, by decide,
   C3_stats_increment_additive idA idA ⟨some 2, some 3⟩ 30 [dA] dA
     (by decide) (by decide) (by decide) (by decide)⟩

/-- C4: the claim says the create operation returns a record with views 0,
likes 0, `createdAt = updatedAt`, and a freshly generated identifier
valid under the 24-hex object-id format.  The zero counters and equal
timestamps hold, and the inserted document does carry the fresh, valid,
not-previously-present identifier — but the `Blog` response model
excludes the underscore `_id` attribute (a pydantic v1 slip: the source
declares the `_id` field with an alias and even converts it to a string
before building the response, so the identifier was clearly meant to be
returned), and the response carries no identifier at all: two creates
with different freshly generated identifiers return identical responses,
in both variants. -/
theorem C4_response_has_no_identifier :
    oidHex 4 ≠ oidHex 9
    ∧ (create_blog ⟨"t", "c", "a", []⟩ 4 5 []).1
        = (create_blog ⟨"t", "c", "a", []⟩ 9 5 []).1
    ∧ (create_blog_api ⟨"t", "c", "a", []⟩ 4 5 []).1
        = (create_blog_api ⟨"t", "c", "a", []⟩ 9 5 []).1
    ∧ (create_blog ⟨"t", "c", "a", []⟩ 4 5 []).1
        = .ok ⟨"t", "c", "a", [], 0, 0, 5, 5⟩
    ∧ (create_blog_api ⟨"t", "c", "a", []⟩ 4 5 []).1
        = .ok ⟨"t", "c", "a", [], 0, 0, 5, 5⟩
    ∧ find_one (create_blog ⟨"t", "c", "a", []⟩ 4 5 []).2.1 (oidHex 4)
        = some ⟨oidHex 4, "t", "c", "a", [], none, none, 5, 5⟩
    ∧ find_one (create_blog_api ⟨"t", "c", "a", []⟩ 4 5 []).2.1 (oidHex 4)
        = some ⟨oidHex 4, "t", "c", "a", [], some 0, some 0, 5, 5⟩
    ∧ isValidObjectId (oidHex 4) = true := by decide

/-- C5: for every existing record and every PUT payload with at least one
field set, under a clock that has advanced past the record's last write,
the update succeeds; the fields not present in the payload keep their
prior values in the stored record (as do the counters and `createdAt`),
and `updatedAt` strictly advances past its prior value. -/
theorem C5_subset_update_frame (id oid : String) (u : BlogUpdate) (now : Nat)
    (s : Store) (d : Doc)
    (hid : parseObjectId id = some oid)
    (hfound : find_one s oid = some d)
    (hne : u ≠ ⟨none, none, none, none⟩)
    (hclock : d.updatedAt < now) :
    update_blog id u now s
      = (.ok (Blog.ofDoc (applySet u now d)),
         (update_one oid (applySet u now) s).1, [.updateOne, .findOne])
    ∧ (u.title = none → (applySet u now d).title = d.title)
    ∧ (u.content = none → (applySet u now d).content = d.content)
    ∧ (u.author = none → (applySet u now d).author = d.author)
    ∧ (u.tags = none → (applySet u now d).tags = d.tags)
    ∧ (applySet u now d).views = d.views
    ∧ (applySet u now d).likes = d.likes
    ∧ (applySet u now d).createdAt = d.createdAt
    ∧ d.updatedAt < (applySet u now d).updatedAt
    ∧ find_one (update_one oid (applySet u now) s).1 oid
        = some (applySet u now d) := by
  have hpres : ∀ x : Doc, (applySet u now x).id = x.id := fun _ => rfl
  obtain ⟨hm, hmod, hfind⟩ :=
    update_one_found oid (applySet u now) hpres s d hfound
  have hchanged : applySet u now d ≠ d := by
    intro h
    have h2 := congrArg Doc.updatedAt h
    exact absurd h2.symm (Nat.ne_of_lt hclock)
  have hmod1 : (update_one oid (applySet u now) s).2.2 = 1 := by
    rw [hmod, if_neg hchanged]
  refine ⟨?_, ?_, ?_, ?_, ?_, rfl, rfl, rfl, hclock, hfind⟩
  · simp [update_blog, hid, hne, hmod1, hfind, catchAll]
  · intro h; simp [applySet, h]
  · intro h; simp [applySet, h]
  · intro h; simp [applySet, h]
  · intro h; simp [applySet, h]

/-- C5 witness: updating only the title of the concrete document `dA` at a
later clock reading keeps content, author, tags and the counters, and
advances `updatedAt` from 20 to 25. -/
theorem C5_witness :
    parseObjectId idA = some idA
    ∧ find_one [dA] idA = some dA
    ∧ (⟨some "t2", none, none, none⟩ : BlogUpdate) ≠ ⟨none, none, none, none⟩
    ∧ dA.updatedAt < 25
    ∧ (update_blog idA ⟨some "t2", none, none, none⟩ 25 [dA]
        = (.ok (Blog.ofDoc (applySet ⟨some "t2", none, none, none⟩ 25 dA)),
           (update_one idA (applySet ⟨some "t2", none, none, none⟩ 25) [dA]).1,
           [.updateOne, .findOne])
      ∧ ((some "t2" : Option String) = none →
          (applySet ⟨some "t2", none, none, none⟩ 25 dA).title = dA.title)
      ∧ ((none : Option String) = none →
          (applySet ⟨some "t2", none, none, none⟩ 25 dA).content = dA.content)
      ∧ ((none : Option String) = none →
          (applySet ⟨some "t2", none, none, none⟩ 25 dA).author = dA.author)
      ∧ ((none : Option (List String)) = none →
          (applySet ⟨some "t2", none, none, none⟩ 25 dA).tags = dA.tags)
      ∧ (applySet ⟨some "t2", none, none, none⟩ 25 dA).views = dA.views
      ∧ (applySet ⟨some "t2", none, none, none⟩ 25 dA).likes = dA.likes
      ∧ (applySet ⟨some "t2", none, none, none⟩ 25 dA).createdAt = dA.createdAt
      ∧ dA.updatedAt < (applySet ⟨some "t2", none, none, none⟩ 25 dA).updatedAt
      ∧ find_one (update_one idA (applySet ⟨some "t2", none, none, none⟩ 25) [dA]).1 idA
          = some (applySet ⟨some "t2", none, none, none⟩ 25 dA)) :=
  ⟨by decide, by decide, by decide, by decide,
   C5_subset_update_frame idA idA ⟨some "t2", none, none, none⟩ 25 [dA] dA
     (by decide) (by decide) (by decide) (by decide)⟩

/-- C6: the claim says deleting a nonexistent id, and deleting twice,
return 404.  In the code the in-handler `HTTPException(404)` is caught by
the blanket `except Exception` and re-raised as a 500: deleting against an
empty collection gives 500, and after a successful delete the second
delete of the same id also gives 500, never 404. -/
theorem C6_delete_missing_returns_500 :
    delete_blog idB ([] : Store) = (.err 500 "404: Blog not found", [], [.deleteOne])
    ∧ (delete_blog idA [dA]).1 = .ok "success"
    ∧ delete_blog idA (delete_blog idA [dA]).2.1
        = (.err 500 "404: Blog not found", [], [.deleteOne]) := by decide

/-- C7 counterexample: the claim says a create payload with empty title,
content or author is rejected and no record is created.  The all-empty
payload passes `BlogCreate` validation (plain `str` fields have no
emptiness constraint), and the create handler inserts a record for it. -/
theorem C7_counterexample :
    parseBlogCreate ⟨some "", some "", some "", some []⟩ = some ⟨"", "", "", []⟩
    ∧ ((create_blog ⟨"", "", "", []⟩ 1 0 []).2.1).length = 1
    ∧ (create_blog ⟨"", "", "", []⟩ 1 0 []).1.isErr = false := by decide

/-- C7 amended: create validation rejects a payload exactly when one of
the required fields title, content, author, tags is missing; empty text is
accepted and creates a record. -/
theorem C7_amended_missing_fields_only (r : RawCreate) :
    parseBlogCreate r = none ↔
      (r.title = none ∨ r.content = none ∨ r.author = none ∨ r.tags = none) := by
  obtain ⟨t, c, a, g⟩ := r
  cases t <;> cases c <;> cases a <;> cases g <;> simp [parseBlogCreate]

/-- C8 counterexample: the claim says every stored record has all fields
populated and no record without them is ever persisted.  The src/main.py
create handler persists a document with neither a views nor a likes key
(they are only defaulted to 0 by the response model). -/
theorem C8_counterexample :
    ((create_blog ⟨"t", "c", "a", []⟩ 2 5 []).2.1).map Doc.views = [none]
    ∧ ((create_blog ⟨"t", "c", "a", []⟩ 2 5 []).2.1).map Doc.likes = [none] := by
  decide

/-- C8 amended: after every operation the stored records keep the
record-level invariant — counters (an absent counter reading as 0) never
negative and `createdAt ≤ updatedAt` — and the create variants append
exactly one complete new record each; but the src/main.py create variant
persists that record without views/likes keys (they are defaulted to 0
only on read), while the src/api/main.py variant stores them as 0, so
"every stored record has all fields populated" holds only for the latter.
Updates and valid stats increments preserve the invariant whenever the
clock has advanced at least to every record's last write. -/
theorem C8_amended_invariant_preservation :
    (∀ (b : BlogCreate) (nonce now : Nat) (s : Store),
       (create_blog b nonce now s).2.1
         = s ++ [⟨oidHex nonce, b.title, b.content, b.author, b.tags,
                  none, none, now, now⟩]
       ∧ (create_blog_api b nonce now s).2.1
         = s ++ [⟨oidHex nonce, b.title, b.content, b.author, b.tags,
                  some 0, some 0, now, now⟩]
       ∧ (goodStore s = true → goodStore (create_blog b nonce now s).2.1 = true)
       ∧ (goodStore s = true →
            goodStore (create_blog_api b nonce now s).2.1 = true))
    ∧ (∀ (id : String) (u : BlogUpdate) (now : Nat) (s : Store),
       goodStore s = true → clockOk s now = true →
       goodStore (update_blog id u now s).2.1 = true)
    ∧ (∀ (id : String) (st : BlogStatsUpdate) (now : Nat) (s : Store),
       goodStore s = true → clockOk s now = true → st.valid = true →
       goodStore (update_blog_stats id st now s).2.1 = true) := by
  refine ⟨?_, ?_, ?_⟩
  · intro b nonce now s
    refine ⟨rfl, rfl, ?_, ?_⟩
    · intro h
      have hs : (create_blog b nonce now s).2.1
          = s ++ [⟨oidHex nonce, b.title, b.content, b.author, b.tags,
                   none, none, now, now⟩] := rfl
      rw [hs, goodStore, List.all_eq_true]
      rw [goodStore, List.all_eq_true] at h
      intro x hx
      rcases List.mem_append.mp hx with hx | hx
      · exact h x hx
      · rw [List.mem_singleton.mp hx]
        simp [goodDoc]
    · intro h
      have hs : (create_blog_api b nonce now s).2.1
          = s ++ [⟨oidHex nonce, b.title, b.content, b.author, b.tags,
                   some 0, some 0, now, now⟩] := rfl
      rw [hs, goodStore, List.all_eq_true]
      rw [goodStore, List.all_eq_true] at h
      intro x hx
      rcases List.mem_append.mp hx with hx | hx
      · exact h x hx
      · rw [List.mem_singleton.mp hx]
        simp [goodDoc]
  · intro id u now s hgood hclock
    rcases update_blog_store_shape id u now s with h | ⟨oid, h⟩
    · rw [h]; exact hgood
    · rw [h]
      refine goodStore_update_one oid _ s hgood ?_
      intro d hd hgd
      have hc : d.updatedAt ≤ now := by
        rw [clockOk, List.all_eq_true] at hclock
        simpa using hclock d hd
      exact goodDoc_applySet u now d hgd hc
  · intro id st now s hgood hclock hval
    rcases update_blog_stats_store_shape id st now s with h | ⟨oid, h⟩
    · rw [h]; exact hgood
    · rw [h]
      refine goodStore_update_one oid _ s hgood ?_
      intro d hd hgd
      have hc : d.updatedAt ≤ now := by
        rw [clockOk, List.all_eq_true] at hclock
        simpa using hclock d hd
      exact goodDoc_applyInc st now d hgd hc hval

/-- C8 witness: concrete runs of the three preserved parts — a create in
the invariant-satisfying collection `[dA]`, a PUT and a PATCH on `dA` at
clock 30. -/
theorem C8_witness :
    goodStore [dA] = true
    ∧ clockOk [dA] 30 = true
    ∧ BlogStatsUpdate.valid ⟨some 1, none⟩ = true
    ∧ goodStore (create_blog ⟨"t", "c", "a", []⟩ 3 30 [dA]).2.1 = true
    ∧ goodStore (update_blog idA ⟨some "t9", none, none, none⟩ 30 [dA]).2.1 = true
    ∧ goodStore (update_blog_stats idA ⟨some 1, none⟩ 30 [dA]).2.1 = true :=
  ⟨by decide, by decide, by decide,
   (C8_amended_invariant_preservation.1 ⟨"t", "c", "a", []⟩ 3 30 [dA]).2.2.1
     (by decide),
   C8_amended_invariant_preservation.2.1 idA ⟨some "t9", none, none, none⟩ 30
     [dA] (by decide) (by decide),
   C8_amended_invariant_preservation.2.2 idA ⟨some 1, none⟩ 30 [dA]
     (by decide) (by decide) (by decide)⟩

/-- C9 counterexample: the claim says every operation issues exactly one
store call.  A successful PUT and a successful PATCH each issue two — the
write (`update_one`) followed by the read-back (`find_one`). -/
theorem C9_counterexample :
    (update_blog idA ⟨some "t2", none, none, none⟩ 25 [dA]).2.2
      = [.updateOne, .findOne]
    ∧ (update_blog_stats idA ⟨some 1, none⟩ 25 [dA]).2.2
      = [.updateOne, .findOne] := by decide

/-- C9 amended: every operation issues at most one store write (list and
get issue none, create exactly one insert, delete at most one delete, PUT
and PATCH at most one update followed by a read-back `find_one`), and on
any error response the collection is unchanged, so no partial-failure
state is possible. -/
theorem C9_amended_at_most_one_write :
    (∀ s : Store,
       writeCount (get_all_blogs s).2.2 = 0 ∧ (get_all_blogs s).2.1 = s)
    ∧ (∀ (id : String) (s : Store),
       writeCount (get_blog id s).2.2 = 0 ∧ (get_blog id s).2.1 = s)
    ∧ (∀ (b : BlogCreate) (nonce now : Nat) (s : Store),
       writeCount (create_blog b nonce now s).2.2 = 1
       ∧ writeCount (create_blog_api b nonce now s).2.2 = 1)
    ∧ (∀ (id : String) (u : BlogUpdate) (now : Nat) (s : Store),
       writeCount (update_blog id u now s).2.2 ≤ 1
       ∧ ((update_blog id u now s).1.isErr = true →
            (update_blog id u now s).2.1 = s))
    ∧ (∀ (id : String) (s : Store),
       writeCount (delete_blog id s).2.2 ≤ 1
       ∧ ((delete_blog id s).1.isErr = true → (delete_blog id s).2.1 = s))
    ∧ (∀ (id : String) (st : BlogStatsUpdate) (now : Nat) (s : Store),
       writeCount (update_blog_stats id st now s).2.2 ≤ 1
       ∧ ((update_blog_stats id st now s).1.isErr = true →
            (update_blog_stats id st now s).2.1 = s)) := by
  refine ⟨fun s => ⟨rfl, rfl⟩, ?_, fun b nonce now s => ⟨rfl, rfl⟩, ?_, ?_, ?_⟩
  · intro id s
    cases hpid : parseObjectId id with
    | none =>
      have htr : (get_blog id s).2.2 = [] := by simp [get_blog, hpid, catchAll]
      have hst : (get_blog id s).2.1 = s := by simp [get_blog, hpid, catchAll]
      exact ⟨by rw [htr]; decide, hst⟩
    | some oid =>
      cases hfind : find_one s oid with
      | none =>
        have htr : (get_blog id s).2.2 = [.findOne] := by
          simp [get_blog, hpid, hfind, catchAll]
        have hst : (get_blog id s).2.1 = s := by
          simp [get_blog, hpid, hfind, catchAll]
        exact ⟨by rw [htr]; decide, hst⟩
      | some d =>
        have htr : (get_blog id s).2.2 = [.findOne] := by
          simp [get_blog, hpid, hfind, catchAll]
        have hst : (get_blog id s).2.1 = s := by
          simp [get_blog, hpid, hfind, catchAll]
        exact ⟨by rw [htr]; decide, hst⟩
  · intro id u now s
    by_cases hu : u = ⟨none, none, none, none⟩
    · have htr : (update_blog id u now s).2.2 = [] := by
        simp [update_blog, hu, catchAll]
      have hst : (update_blog id u now s).2.1 = s := by
        simp [update_blog, hu, catchAll]
      exact ⟨by rw [htr]; decide, fun _ => hst⟩
    · cases hpid : parseObjectId id with
      | none =>
        have htr : (update_blog id u now s).2.2 = [] := by
          simp [update_blog, hu, hpid, catchAll]
        have hst : (update_blog id u now s).2.1 = s := by
          simp [update_blog, hu, hpid, catchAll]
        exact ⟨by rw [htr]; decide, fun _ => hst⟩
      | some oid =>
        cases hfind : find_one s oid with
        | none =>
          have hup := update_one_not_found oid (applySet u now) s hfind
          have htr : (update_blog id u now s).2.2 = [.updateOne] := by
            simp [update_blog, hu, hpid, hup, catchAll]
          have hst : (update_blog id u now s).2.1 = s := by
            simp [update_blog, hu, hpid, hup, catchAll]
          exact ⟨by rw [htr]; decide, fun _ => hst⟩
        | some d =>
          obtain ⟨hm, hmod, hfx⟩ :=
            update_one_found oid (applySet u now) (fun _ => rfl) s d hfind
          by_cases hfd : applySet u now d = d
          · have hmod0 : (update_one oid (applySet u now) s).2.2 = 0 := by
              rw [hmod, if_pos hfd]
            have hsz := update_one_modified_zero oid (applySet u now) s hmod0
            have htr : (update_blog id u now s).2.2 = [.updateOne] := by
              simp [update_blog, hu, hpid, hmod0, catchAll]
            have hst : (update_blog id u now s).2.1 = s := by
              simp [update_blog, hu, hpid, hmod0, catchAll, hsz]
            exact ⟨by rw [htr]; decide, fun _ => hst⟩
          · have hmod1 : (update_one oid (applySet u now) s).2.2 = 1 := by
              rw [hmod, if_neg hfd]
            have htr : (update_blog id u now s).2.2 = [.updateOne, .findOne] := by
              simp [update_blog, hu, hpid, hmod1, hfx, catchAll]
            have hok : (update_blog id u now s).1
                = .ok (Blog.ofDoc (applySet u now d)) := by
              simp [update_blog, hu, hpid, hmod1, hfx, catchAll]
            refine ⟨by rw [htr]; decide, fun hx => ?_⟩
            rw [hok] at hx
            simp [Resp.isErr] at hx
  · intro id s
    cases hpid : parseObjectId id with
    | none =>
      have htr : (delete_blog id s).2.2 = [] := by
        simp [delete_blog, hpid, catchAll]
      have hst : (delete_blog id s).2.1 = s := by
        simp [delete_blog, hpid, catchAll]
      exact ⟨by rw [htr]; decide, fun _ => hst⟩
    | some oid =>
      by_cases hdel : (delete_one oid s).2 = 0
      · have hsz := delete_one_deleted_zero oid s hdel
        have htr : (delete_blog id s).2.2 = [.deleteOne] := by
          simp [delete_blog, hpid, hdel, catchAll]
        have hst : (delete_blog id s).2.1 = s := by
          simp [delete_blog, hpid, hdel, catchAll, hsz]
        exact ⟨by rw [htr]; decide, fun _ => hst⟩
      · have htr : (delete_blog id s).2.2 = [.deleteOne] := by
          simp [delete_blog, hpid, hdel, catchAll]
        have hok : (delete_blog id s).1 = .ok "success" := by
          simp [delete_blog, hpid, hdel, catchAll]
        refine ⟨by rw [htr]; decide, fun hx => ?_⟩
        rw [hok] at hx
        simp [Resp.isErr] at hx
  · intro id st now s
    by_cases hst0 : st = ⟨none, none⟩
    · have htr : (update_blog_stats id st now s).2.2 = [] := by
        simp [update_blog_stats, hst0, catchAll]
      have hst : (update_blog_stats id st now s).2.1 = s := by
        simp [update_blog_stats, hst0, catchAll]
      exact ⟨by rw [htr]; decide, fun _ => hst⟩
    · cases hpid : parseObjectId id with
      | none =>
        have htr : (update_blog_stats id st now s).2.2 = [] := by
          simp [update_blog_stats, hst0, hpid, catchAll]
        have hst : (update_blog_stats id st now s).2.1 = s := by
          simp [update_blog_stats, hst0, hpid, catchAll]
        exact ⟨by rw [htr]; decide, fun _ => hst⟩
      | some oid =>
        cases hfind : find_one s oid with
        | none =>
          have hup := update_one_not_found oid (applyInc st now) s hfind
          have htr : (update_blog_stats id st now s).2.2 = [.updateOne] := by
            simp [update_blog_stats, hst0, hpid, hup, catchAll]
          have hst : (update_blog_stats id st now s).2.1 = s := by
            simp [update_blog_stats, hst0, hpid, hup, catchAll]
          exact ⟨by rw [htr]; decide, fun _ => hst⟩
        | some d =>
          obtain ⟨hm, hmod, hfx⟩ :=
            update_one_found oid (applyInc st now) (fun _ => rfl) s d hfind
          have htr : (update_blog_stats id st now s).2.2
              = [.updateOne, .findOne] := by
            simp [update_blog_stats, hst0, hpid, hm, hfx, catchAll]
          have hok : (update_blog_stats id st now s).1
              = .ok (Blog.ofDoc (applyInc st now d)) := by
            simp [update_blog_stats, hst0, hpid, hm, hfx, catchAll]
          refine ⟨by rw [htr]; decide, fun hx => ?_⟩
          rw [hok] at hx
          simp [Resp.isErr] at hx

/-- C9 witness: a PUT against an empty collection returns an error and
leaves the collection unchanged, using at most one write. -/
theorem C9_witness :
    writeCount (update_blog idB ⟨some "z", none, none, none⟩ 0 []).2.2 ≤ 1
    ∧ (update_blog idB ⟨some "z", none, none, none⟩ 0 []).1.isErr = true
    ∧ (update_blog idB ⟨some "z", none, none, none⟩ 0 []).2.1 = [] :=
  ⟨(C9_amended_at_most_one_write.2.2.2.1 idB ⟨some "z", none, none, none⟩ 0 []).1,
   by decide,
   (C9_amended_at_most_one_write.2.2.2.1 idB ⟨some "z", none, none, none⟩ 0 []).2
     (by decide)⟩

/-- C10 counterexample: the claim says a PUT whose provided field values
all equal the stored values is reported as not-found (zero rows
modified).  Because `updatedAt` is part of the `$set`, such a PUT still
modifies the row whenever the fresh timestamp differs from the stored
one: here a PUT re-sending the stored title "t1" at clock 25 (stored
`updatedAt` 20) succeeds and returns the record. -/
theorem C10_counterexample :
    (update_blog idA ⟨some "t1", none, none, none⟩ 25 [dA]).1
      = .ok (Blog.ofDoc ⟨idA, "t1", "c1", "a1", ["x"], some 3, some 5, 10, 25⟩) := by
  decide

/-- C10 amended: the PUT handler tests the modified-row count, so it
reports an error (the in-handler 404, surfaced as 500 by the blanket
exception handler) exactly when the whole `$set` — provided fields plus
the fresh `updatedAt` — leaves the document unchanged; when anything
(usually `updatedAt`) differs it succeeds and returns the record.  The
PATCH handler tests the matched-row count and therefore succeeds on an
existing record regardless of whether the stored counters change. -/
theorem C10_amended_modified_vs_matched (id oid : String) (u : BlogUpdate)
    (st : BlogStatsUpdate) (now : Nat) (s : Store) (d : Doc)
    (hid : parseObjectId id = some oid)
    (hfound : find_one s oid = some d) :
    (u ≠ ⟨none, none, none, none⟩ → applySet u now d = d →
       update_blog id u now s
         = (.err 500 "404: Blog not found", s, [.updateOne]))
    ∧ (u ≠ ⟨none, none, none, none⟩ → applySet u now d ≠ d →
       (update_blog id u now s).1 = .ok (Blog.ofDoc (applySet u now d)))
    ∧ (st ≠ ⟨none, none⟩ →
       (update_blog_stats id st now s).1
         = .ok (Blog.ofDoc (applyInc st now d))) := by
  refine ⟨?_, ?_, ?_⟩
  · intro hne hfd
    obtain ⟨hm, hmod, hfx⟩ :=
      update_one_found oid (applySet u now) (fun _ => rfl) s d hfound
    have hmod0 : (update_one oid (applySet u now) s).2.2 = 0 := by
      rw [hmod, if_pos hfd]
    have hsz := update_one_modified_zero oid (applySet u now) s hmod0
    have hdetail : PyExc.toStr (.http 404 "Blog not found")
        = "404: Blog not found" := rfl
    simp [update_blog, hne, hid, hmod0, hsz, catchAll, hdetail]
  · intro hne hfd
    obtain ⟨hm, hmod, hfx⟩ :=
      update_one_found oid (applySet u now) (fun _ => rfl) s d hfound
    have hmod1 : (update_one oid (applySet u now) s).2.2 = 1 := by
      rw [hmod, if_neg hfd]
    simp [update_blog, hne, hid, hmod1, hfx, catchAll]
  · intro hne
    obtain ⟨hm, hmod, hfx⟩ :=
      update_one_found oid (applyInc st now) (fun _ => rfl) s d hfound
    simp [update_blog_stats, hne, hid, hm, hfx, catchAll]

/-- C10 witness: a PUT re-sending the stored title at the stored clock
reading 20 leaves the document completely unchanged and is reported as an
error; a PATCH with a zero views delta on the same record succeeds. -/
theorem C10_witness :
    parseObjectId idA = some idA
    ∧ find_one [dA] idA = some dA
    ∧ ((⟨some "t1", none, none, none⟩ : BlogUpdate) ≠ ⟨none, none, none, none⟩)
    ∧ applySet ⟨some "t1", none, none, none⟩ 20 dA = dA
    ∧ update_blog idA ⟨some "t1", none, none, none⟩ 20 [dA]
        = (.err 500 "404: Blog not found", [dA], [.updateOne])
    ∧ ((⟨some 0, none⟩ : BlogStatsUpdate) ≠ ⟨none, none⟩)
    ∧ (update_blog_stats idA ⟨some 0, none⟩ 30 [dA]).1
        = .ok (Blog.ofDoc (applyInc ⟨some 0, none⟩ 30 dA)) :=
  ⟨by decide, by decide, by decide, by decide,
   (C10_amended_modified_vs_matched idA idA ⟨some "t1", none, none, none⟩
      ⟨some 0, none⟩ 20 [dA] dA (by decide) (by decide)).1
     (by decide) (by decide),
   by decide,
   (C10_amended_modified_vs_matched idA idA ⟨some "t1", none, none, none⟩
      ⟨some 0, none⟩ 30 [dA] dA (by decide) (by decide)).2.2 (by decide)⟩

end VedicVault
